import Mathlib

/-
Shallow embedding of src/main.py: a FastAPI CRUD service over four SQLite
tables (polls, comments, teams, players).  Each table is modelled as a list
of rows in insertion order together with the AUTOINCREMENT counter; each
route handler becomes a pure function from the table state (and its
parameters) to a response and the new table state.  `HTTPException`
mirrors fastapi.HTTPException; a handler that can raise it returns
`Except HTTPException _`.  SELECT * returns rows in store order, embedded
here as the list order; the response dicts built by the handlers list the
row's columns in table order, so the row structures double as the
response records.
-/

namespace ItMajor3

/-- fastapi.HTTPException as raised by the handlers: a status code and a
detail message. -/
structure HTTPException where
  status_code : Nat
  detail : String
deriving DecidableEq, Repr

/-- One SQLite table: rows in store (insertion) order plus the
AUTOINCREMENT counter for the next assigned id (starts at 1). -/
structure Table (ρ : Type) where
  rows : List ρ
  nextId : Int
deriving DecidableEq, Repr

/-- A row of the polls table: id, question TEXT NOT NULL, likes INTEGER
DEFAULT 0 (from init_db). -/
structure PollRow where
  id : Int
  question : String
  likes : Int
deriving DecidableEq, Repr

/-- A row of the comments table: id, poll_id INTEGER (FK to polls, declared
only), content TEXT (from init_db).  Rows are only ever inserted through
create_comment, whose input model supplies both poll_id and content. -/
structure CommentRow where
  id : Int
  poll_id : Int
  content : String
deriving DecidableEq, Repr

/-- A row of the teams table: id, team_name, city, championships
(from init_db). -/
structure TeamRow where
  id : Int
  team_name : String
  city : String
  championships : Int
deriving DecidableEq, Repr

/-- A row of the players table: id, name, jersey_number, position, team_id
(from init_db). -/
structure PlayerRow where
  id : Int
  name : String
  jersey_number : Int
  position : String
  team_id : Int
deriving DecidableEq, Repr

/-- Column lists of the four tables, in CREATE TABLE order (init_db). -/
def polls_columns : List String := ["id", "question", "likes"]

def comments_columns : List String := ["id", "poll_id", "content"]

def teams_columns : List String := ["id", "team_name", "city", "championships"]

def players_columns : List String := ["id", "name", "jersey_number", "position", "team_id"]

/-- Pydantic model PollCreate. -/
structure PollCreate where
  question : String
deriving DecidableEq, Repr

/-- Pydantic model PollUpdate: question defaults to None. -/
structure PollUpdate where
  question : Option String
deriving DecidableEq, Repr

/-- Pydantic model CommentCreate. -/
structure CommentCreate where
  poll_id : Int
  content : String
deriving DecidableEq, Repr

/-- Pydantic model CommentUpdate: only content, defaulting to None; there
is no poll_id field. -/
structure CommentUpdate where
  content : Option String
deriving DecidableEq, Repr

/-- Pydantic model TeamCreate. -/
structure TeamCreate where
  team_name : String
  city : String
  championships : Int
deriving DecidableEq, Repr

/-- Pydantic model TeamUpdate: every field defaults to None. -/
structure TeamUpdate where
  team_name : Option String
  city : Option String
  championships : Option Int
deriving DecidableEq, Repr

/-- Pydantic model PlayerCreate. -/
structure PlayerCreate where
  name : String
  jersey_number : Int
  position : String
  team_id : Int
deriving DecidableEq, Repr

/-- Pydantic model PlayerUpdate: every field defaults to None. -/
structure PlayerUpdate where
  name : Option String
  jersey_number : Option Int
  position : Option String
  team_id : Option Int
deriving DecidableEq, Repr

/-- A value bound to a positional placeholder of a SQL statement. -/
inductive SqlValue
  | intV : Int → SqlValue
  | strV : String → SqlValue
deriving DecidableEq, Repr

/-- A parameterized UPDATE statement: target table, the SET assignments in
statement order (column name, bound value), and the id bound in the WHERE
clause. -/
structure SqlUpdate where
  table : String
  sets : List (String × SqlValue)
  whereId : Int
deriving DecidableEq, Repr

/- ------------------------------------------------------------------ -/
/- Poll routes                                                         -/
/- ------------------------------------------------------------------ -/

/-- POST /polls/: INSERT INTO polls (question) VALUES (?); likes takes the
column default 0, id the AUTOINCREMENT value.  Returns the input model. -/
def create_poll (t : Table PollRow) (poll : PollCreate) :
    PollCreate × Table PollRow :=
  (poll, { rows := t.rows ++ [{ id := t.nextId, question := poll.question, likes := 0 }],
           nextId := t.nextId + 1 })

/-- GET /polls/: SELECT * FROM polls, each row mapped to
\x7b"id": row[0], "question": row[1], "likes": row[2]\x7d. -/
def get_polls (t : Table PollRow) : List PollRow :=
  t.rows

/-- GET /polls/\x7bpoll_id\x7d: fetchone on SELECT * WHERE id = ?;
404 "Poll not found" when no row matches. -/
def get_poll (t : Table PollRow) (poll_id : Int) :
    Except HTTPException PollRow :=
  match t.rows.find? (fun r => r.id == poll_id) with
  | none => .error { status_code := 404, detail := "Poll not found" }
  | some poll => .ok poll

/-- The SET assignments executed by update_poll:
UPDATE polls SET question = ? WHERE id = ?, bound to the merged value. -/
def pollSets (row : PollRow) (u : PollUpdate) : List (String × SqlValue) :=
  [("question", .strV (u.question.getD row.question))]

/-- Effect of one SET assignment on a polls row. -/
def applyPollAssignment (r : PollRow) : String × SqlValue → PollRow
  | ("question", .strV v) => { r with question := v }
  | ("likes", .intV v) => { r with likes := v }
  | _ => r

/-- Effect of a SET list on a polls row, in statement order. -/
def applyPollAssignments (sets : List (String × SqlValue)) (r : PollRow) : PollRow :=
  sets.foldl applyPollAssignment r

/-- PUT /polls/\x7bpoll_id\x7d: fetch the existing row (404 if absent), merge
the partial (None keeps the stored value), execute
UPDATE polls SET question = ? WHERE id = ?, and return
\x7b"id", "question", "likes"\x7d with likes from the existing row. -/
def update_poll (t : Table PollRow) (poll_id : Int) (poll_update : PollUpdate) :
    Except HTTPException PollRow × Table PollRow :=
  match t.rows.find? (fun r => r.id == poll_id) with
  | none => (.error { status_code := 404, detail := "Poll not found" }, t)
  | some existing_poll =>
    (.ok { id := poll_id,
           question := poll_update.question.getD existing_poll.question,
           likes := existing_poll.likes },
     { t with rows := t.rows.map (fun r =>
         if r.id == poll_id then applyPollAssignments (pollSets existing_poll poll_update) r else r) })

/-- The UPDATE statement update_poll executes, when the row exists. -/
def update_poll_stmt (t : Table PollRow) (poll_id : Int) (poll_update : PollUpdate) :
    Option SqlUpdate :=
  (t.rows.find? (fun r => r.id == poll_id)).map
    (fun existing_poll => { table := "polls", sets := pollSets existing_poll poll_update, whereId := poll_id })

/-- DELETE /polls/\x7bpoll_id\x7d: DELETE FROM polls WHERE id = ? (executed and
committed unconditionally), then 404 if rowcount: 0, else a confirmation
message. -/
def delete_poll (t : Table PollRow) (poll_id : Int) :
    Except HTTPException String × Table PollRow :=
  let rowcount := t.rows.countP (fun r => r.id == poll_id)
  (if rowcount = 0 then .error { status_code := 404, detail := "Poll not found" }
   else .ok "Poll deleted successfully",
   { t with rows := t.rows.filter (fun r => !(r.id == poll_id)) })

/- ------------------------------------------------------------------ -/
/- Comment routes                                                      -/
/- ------------------------------------------------------------------ -/

/-- POST /comments/: INSERT INTO comments (poll_id, content) VALUES (?, ?).
No check that poll_id references an existing poll.  Returns the input. -/
def create_comment (t : Table CommentRow) (comment : CommentCreate) :
    CommentCreate × Table CommentRow :=
  (comment, { rows := t.rows ++ [{ id := t.nextId, poll_id := comment.poll_id, content := comment.content }],
              nextId := t.nextId + 1 })

/-- GET /comments/: SELECT * FROM comments. -/
def get_comments (t : Table CommentRow) : List CommentRow :=
  t.rows

/-- GET /comments/\x7bcomment_id\x7d: 404 "Comment not found" when absent. -/
def get_comment (t : Table CommentRow) (comment_id : Int) :
    Except HTTPException CommentRow :=
  match t.rows.find? (fun r => r.id == comment_id) with
  | none => .error { status_code := 404, detail := "Comment not found" }
  | some comment => .ok comment

/-- The SET assignments executed by update_comment:
UPDATE comments SET content = ? WHERE id = ? — poll_id is not assigned. -/
def commentSets (row : CommentRow) (u : CommentUpdate) : List (String × SqlValue) :=
  [("content", .strV (u.content.getD row.content))]

/-- Effect of one SET assignment on a comments row. -/
def applyCommentAssignment (r : CommentRow) : String × SqlValue → CommentRow
  | ("poll_id", .intV v) => { r with poll_id := v }
  | ("content", .strV v) => { r with content := v }
  | _ => r

/-- Effect of a SET list on a comments row, in statement order. -/
def applyCommentAssignments (sets : List (String × SqlValue)) (r : CommentRow) : CommentRow :=
  sets.foldl applyCommentAssignment r

/-- PUT /comments/\x7bcomment_id\x7d: fetch the existing row (404 if absent),
merge content, execute UPDATE comments SET content = ? WHERE id = ?, and
return \x7b"id", "poll_id", "content"\x7d with poll_id from the existing row. -/
def update_comment (t : Table CommentRow) (comment_id : Int) (comment_update : CommentUpdate) :
    Except HTTPException CommentRow × Table CommentRow :=
  match t.rows.find? (fun r => r.id == comment_id) with
  | none => (.error { status_code := 404, detail := "Comment not found" }, t)
  | some existing_comment =>
    (.ok { id := comment_id,
           poll_id := existing_comment.poll_id,
           content := comment_update.content.getD existing_comment.content },
     { t with rows := t.rows.map (fun r =>
         if r.id == comment_id then applyCommentAssignments (commentSets existing_comment comment_update) r else r) })

/-- The UPDATE statement update_comment executes, when the row exists. -/
def update_comment_stmt (t : Table CommentRow) (comment_id : Int) (comment_update : CommentUpdate) :
    Option SqlUpdate :=
  (t.rows.find? (fun r => r.id == comment_id)).map
    (fun existing_comment => { table := "comments", sets := commentSets existing_comment comment_update, whereId := comment_id })

/-- DELETE /comments/\x7bcomment_id\x7d. -/
def delete_comment (t : Table CommentRow) (comment_id : Int) :
    Except HTTPException String × Table CommentRow :=
  let rowcount := t.rows.countP (fun r => r.id == comment_id)
  (if rowcount = 0 then .error { status_code := 404, detail := "Comment not found" }
   else .ok "Comment deleted successfully",
   { t with rows := t.rows.filter (fun r => !(r.id == comment_id)) })

/- ------------------------------------------------------------------ -/
/- Team routes                                                         -/
/- ------------------------------------------------------------------ -/

/-- POST /teams/: INSERT INTO teams (team_name, city, championships)
VALUES (?, ?, ?).  Returns the input. -/
def create_team (t : Table TeamRow) (team : TeamCreate) :
    TeamCreate × Table TeamRow :=
  (team, { rows := t.rows ++ [{ id := t.nextId, team_name := team.team_name,
                                city := team.city, championships := team.championships }],
           nextId := t.nextId + 1 })

/-- GET /teams/: SELECT * FROM teams. -/
def get_teams (t : Table TeamRow) : List TeamRow :=
  t.rows

/-- GET /teams/\x7bteam_id\x7d: 404 "Team not found" when absent. -/
def get_team (t : Table TeamRow) (team_id : Int) :
    Except HTTPException TeamRow :=
  match t.rows.find? (fun r => r.id == team_id) with
  | none => .error { status_code := 404, detail := "Team not found" }
  | some team => .ok team

/-- The SET assignments executed by update_team:
UPDATE teams SET team_name = ?, city = ?, championships = ? WHERE id = ?. -/
def teamSets (row : TeamRow) (u : TeamUpdate) : List (String × SqlValue) :=
  [("team_name", .strV (u.team_name.getD row.team_name)),
   ("city", .strV (u.city.getD row.city)),
   ("championships", .intV (u.championships.getD row.championships))]

/-- Effect of one SET assignment on a teams row. -/
def applyTeamAssignment (r : TeamRow) : String × SqlValue → TeamRow
  | ("team_name", .strV v) => { r with team_name := v }
  | ("city", .strV v) => { r with city := v }
  | ("championships", .intV v) => { r with championships := v }
  | _ => r

/-- Effect of a SET list on a teams row, in statement order. -/
def applyTeamAssignments (sets : List (String × SqlValue)) (r : TeamRow) : TeamRow :=
  sets.foldl applyTeamAssignment r

/-- PUT /teams/\x7bteam_id\x7d: fetch the existing row (404 if absent), merge
each field (None keeps the stored value), execute the full three-column
UPDATE, and return the merged record with its id. -/
def update_team (t : Table TeamRow) (team_id : Int) (team_update : TeamUpdate) :
    Except HTTPException TeamRow × Table TeamRow :=
  match t.rows.find? (fun r => r.id == team_id) with
  | none => (.error { status_code := 404, detail := "Team not found" }, t)
  | some existing_team =>
    (.ok { id := team_id,
           team_name := team_update.team_name.getD existing_team.team_name,
           city := team_update.city.getD existing_team.city,
           championships := team_update.championships.getD existing_team.championships },
     { t with rows := t.rows.map (fun r =>
         if r.id == team_id then applyTeamAssignments (teamSets existing_team team_update) r else r) })

/-- The UPDATE statement update_team executes, when the row exists. -/
def update_team_stmt (t : Table TeamRow) (team_id : Int) (team_update : TeamUpdate) :
    Option SqlUpdate :=
  (t.rows.find? (fun r => r.id == team_id)).map
    (fun existing_team => { table := "teams", sets := teamSets existing_team team_update, whereId := team_id })

/-- DELETE /teams/\x7bteam_id\x7d. -/
def delete_team (t : Table TeamRow) (team_id : Int) :
    Except HTTPException String × Table TeamRow :=
  let rowcount := t.rows.countP (fun r => r.id == team_id)
  (if rowcount = 0 then .error { status_code := 404, detail := "Team not found" }
   else .ok "Team deleted successfully",
   { t with rows := t.rows.filter (fun r => !(r.id == team_id)) })

/- ------------------------------------------------------------------ -/
/- Player routes                                                       -/
/- ------------------------------------------------------------------ -/

/-- POST /players/: INSERT INTO players (name, jersey_number, position,
team_id) VALUES (?, ?, ?, ?).  Returns the input. -/
def create_player (t : Table PlayerRow) (player : PlayerCreate) :
    PlayerCreate × Table PlayerRow :=
  (player, { rows := t.rows ++ [{ id := t.nextId, name := player.name,
                                  jersey_number := player.jersey_number,
                                  position := player.position, team_id := player.team_id }],
             nextId := t.nextId + 1 })

/-- GET /players/: SELECT * FROM players. -/
def get_players (t : Table PlayerRow) : List PlayerRow :=
  t.rows

/-- GET /players/\x7bplayer_id\x7d: 404 "Player not found" when absent. -/
def get_player (t : Table PlayerRow) (player_id : Int) :
    Except HTTPException PlayerRow :=
  match t.rows.find? (fun r => r.id == player_id) with
  | none => .error { status_code := 404, detail := "Player not found" }
  | some player => .ok player

/-- The SET assignments executed by update_player: UPDATE players SET
name = ?, jersey_number = ?, position = ?, team_id = ? WHERE id = ?. -/
def playerSets (row : PlayerRow) (u : PlayerUpdate) : List (String × SqlValue) :=
  [("name", .strV (u.name.getD row.name)),
   ("jersey_number", .intV (u.jersey_number.getD row.jersey_number)),
   ("position", .strV (u.position.getD row.position)),
   ("team_id", .intV (u.team_id.getD row.team_id))]

/-- Effect of one SET assignment on a players row. -/
def applyPlayerAssignment (r : PlayerRow) : String × SqlValue → PlayerRow
  | ("name", .strV v) => { r with name := v }
  | ("jersey_number", .intV v) => { r with jersey_number := v }
  | ("position", .strV v) => { r with position := v }
  | ("team_id", .intV v) => { r with team_id := v }
  | _ => r

/-- Effect of a SET list on a players row, in statement order. -/
def applyPlayerAssignments (sets : List (String × SqlValue)) (r : PlayerRow) : PlayerRow :=
  sets.foldl applyPlayerAssignment r

/-- PUT /players/\x7bplayer_id\x7d: fetch the existing row (404 if absent),
merge each field, execute the full four-column UPDATE, and return the
merged record with its id. -/
def update_player (t : Table PlayerRow) (player_id : Int) (player_update : PlayerUpdate) :
    Except HTTPException PlayerRow × Table PlayerRow :=
  match t.rows.find? (fun r => r.id == player_id) with
  | none => (.error { status_code := 404, detail := "Player not found" }, t)
  | some existing_player =>
    (.ok { id := player_id,
           name := player_update.name.getD existing_player.name,
           jersey_number := player_update.jersey_number.getD existing_player.jersey_number,
           position := player_update.position.getD existing_player.position,
           team_id := player_update.team_id.getD existing_player.team_id },
     { t with rows := t.rows.map (fun r =>
         if r.id == player_id then applyPlayerAssignments (playerSets existing_player player_update) r else r) })

/-- The UPDATE statement update_player executes, when the row exists. -/
def update_player_stmt (t : Table PlayerRow) (player_id : Int) (player_update : PlayerUpdate) :
    Option SqlUpdate :=
  (t.rows.find? (fun r => r.id == player_id)).map
    (fun existing_player => { table := "players", sets := playerSets existing_player player_update, whereId := player_id })

/-- DELETE /players/\x7bplayer_id\x7d. -/
def delete_player (t : Table PlayerRow) (player_id : Int) :
    Except HTTPException String × Table PlayerRow :=
  let rowcount := t.rows.countP (fun r => r.id == player_id)
  (if rowcount = 0 then .error { status_code := 404, detail := "Player not found" }
   else .ok "Player deleted successfully",
   { t with rows := t.rows.filter (fun r => !(r.id == player_id)) })

/- ------------------------------------------------------------------ -/
/- Whole-service state                                                 -/
/- ------------------------------------------------------------------ -/

/-- The whole store: the four tables created by init_db. -/
structure DB where
  polls : Table PollRow
  comments : Table CommentRow
  teams : Table TeamRow
  players : Table PlayerRow
deriving DecidableEq, Repr

/-- The store right after init_db on a fresh file: four empty tables,
AUTOINCREMENT counters at 1. -/
def initDB : DB :=
  { polls := { rows := [], nextId := 1 },
    comments := { rows := [], nextId := 1 },
    teams := { rows := [], nextId := 1 },
    players := { rows := [], nextId := 1 } }

/-- create_comment seen at the service level: it reads and writes only the
comments table, never consulting polls. -/
def app_create_comment (db : DB) (comment : CommentCreate) : CommentCreate × DB :=
  let r := create_comment db.comments comment
  (r.1, { db with comments := r.2 })

/-- The state-changing poll operations exposed by the service (GET routes
do not write). -/
inductive PollOp
  | create : PollCreate → PollOp
  | update : Int → PollUpdate → PollOp
  | delete : Int → PollOp
deriving DecidableEq, Repr

/-- The polls-table state transition of one exposed operation. -/
def applyPollOp (t : Table PollRow) : PollOp → Table PollRow
  | .create p => (create_poll t p).2
  | .update i u => (update_poll t i u).2
  | .delete i => (delete_poll t i).2

/-- The polls table reached by running a sequence of exposed operations
from the freshly initialized store. -/
def runPolls (ops : List PollOp) : Table PollRow :=
  ops.foldl applyPollOp initDB.polls

/- ------------------------------------------------------------------ -/
/- Helper lemmas                                                       -/
/- ------------------------------------------------------------------ -/

lemma find?_filter_not {ρ : Type} (p : ρ → Bool) (l : List ρ) :
    (l.filter (fun r => !(p r))).find? p = none := by
  apply List.find?_eq_none.mpr
  intro x hx
  have h := (List.mem_filter.mp hx).2
  simp only [Bool.not_eq_true'] at h
  simp [h]

lemma find?_id_map {ρ : Type} (l : List ρ) (idf : ρ → Int) (g : ρ → ρ) (i : Int)
    (hg : ∀ r, idf (g r) = idf r) :
    (l.map g).find? (fun r => idf r == i) = (l.find? (fun r => idf r == i)).map g := by
  rw [List.find?_map g l]
  have hp : ((fun r => idf r == i) ∘ g) = (fun r => idf r == i) := by
    funext r
    simp [Function.comp, hg]
  rw [hp]

lemma map_eq_self_of_eq_on {ρ : Type} (l : List ρ) (g : ρ → ρ) (h : ∀ r ∈ l, g r = r) :
    l.map g = l := by
  calc l.map g = l.map id := List.map_congr_left h
    _ = l := l.map_id

lemma update_poll_eq_of_find (t : Table PollRow) (i : Int) (u : PollUpdate) (row : PollRow)
    (h : t.rows.find? (fun r => r.id == i) = some row) :
    update_poll t i u =
      (.ok { id := i, question := u.question.getD row.question, likes := row.likes },
       { t with rows := t.rows.map (fun r =>
           if r.id == i then { r with question := u.question.getD row.question } else r) }) := by
  unfold update_poll
  rw [h]
  rfl

lemma update_poll_eq_of_none (t : Table PollRow) (i : Int) (u : PollUpdate)
    (h : t.rows.find? (fun r => r.id == i) = none) :
    update_poll t i u = (.error { status_code := 404, detail := "Poll not found" }, t) := by
  unfold update_poll
  rw [h]

lemma update_comment_eq_of_find (t : Table CommentRow) (i : Int) (u : CommentUpdate) (row : CommentRow)
    (h : t.rows.find? (fun r => r.id == i) = some row) :
    update_comment t i u =
      (.ok { id := i, poll_id := row.poll_id, content := u.content.getD row.content },
       { t with rows := t.rows.map (fun r =>
           if r.id == i then { r with content := u.content.getD row.content } else r) }) := by
  unfold update_comment
  rw [h]
  rfl

lemma update_comment_eq_of_none (t : Table CommentRow) (i : Int) (u : CommentUpdate)
    (h : t.rows.find? (fun r => r.id == i) = none) :
    update_comment t i u = (.error { status_code := 404, detail := "Comment not found" }, t) := by
  unfold update_comment
  rw [h]

lemma update_team_eq_of_find (t : Table TeamRow) (i : Int) (u : TeamUpdate) (row : TeamRow)
    (h : t.rows.find? (fun r => r.id == i) = some row) :
    update_team t i u =
      (.ok { id := i, team_name := u.team_name.getD row.team_name,
             city := u.city.getD row.city,
             championships := u.championships.getD row.championships },
       { t with rows := t.rows.map (fun r =>
           if r.id == i then
             { r with team_name := u.team_name.getD row.team_name,
                      city := u.city.getD row.city,
                      championships := u.championships.getD row.championships }
           else r) }) := by
  unfold update_team
  rw [h]
  rfl

lemma update_team_eq_of_none (t : Table TeamRow) (i : Int) (u : TeamUpdate)
    (h : t.rows.find? (fun r => r.id == i) = none) :
    update_team t i u = (.error { status_code := 404, detail := "Team not found" }, t) := by
  unfold update_team
  rw [h]

lemma update_player_eq_of_none (t : Table PlayerRow) (i : Int) (u : PlayerUpdate)
    (h : t.rows.find? (fun r => r.id == i) = none) :
    update_player t i u = (.error { status_code := 404, detail := "Player not found" }, t) := by
  unfold update_player
  rw [h]

lemma update_player_eq_of_find (t : Table PlayerRow) (i : Int) (u : PlayerUpdate) (row : PlayerRow)
    (h : t.rows.find? (fun r => r.id == i) = some row) :
    update_player t i u =
      (.ok { id := i, name := u.name.getD row.name,
             jersey_number := u.jersey_number.getD row.jersey_number,
             position := u.position.getD row.position,
             team_id := u.team_id.getD row.team_id },
       { t with rows := t.rows.map (fun r =>
           if r.id == i then
             { r with name := u.name.getD row.name,
                      jersey_number := u.jersey_number.getD row.jersey_number,
                      position := u.position.getD row.position,
                      team_id := u.team_id.getD row.team_id }
           else r) }) := by
  unfold update_player
  rw [h]
  rfl

lemma pollOp_preserves_likes (t : Table PollRow) (op : PollOp)
    (h : ∀ r ∈ t.rows, r.likes = 0) : ∀ r ∈ (applyPollOp t op).rows, r.likes = 0 := by
  cases op with
  | create p =>
    intro r hr
    simp only [applyPollOp, create_poll, List.mem_append, List.mem_singleton] at hr
    rcases hr with hr | hr
    · exact h r hr
    · rw [hr]
  | update i u =>
    intro r hr
    simp only [applyPollOp] at hr
    cases hfind : t.rows.find? (fun x => x.id == i) with
    | none =>
      rw [update_poll_eq_of_none t i u hfind] at hr
      exact h r hr
    | some row =>
      rw [update_poll_eq_of_find t i u row hfind] at hr
      simp only [List.mem_map] at hr
      obtain ⟨r₀, hr₀, hmap⟩ := hr
      by_cases hb : (r₀.id == i) = true
      · rw [← hmap]
        simp only [hb, if_true]
        exact h r₀ hr₀
      · rw [← hmap]
        simp only [hb, if_false]
        exact h r₀ hr₀
  | delete i =>
    intro r hr
    simp only [applyPollOp, delete_poll] at hr
    exact h r (List.mem_of_mem_filter hr)

lemma runPolls_likes_aux : ∀ (ops : List PollOp) (t : Table PollRow),
    (∀ r ∈ t.rows, r.likes = 0) → ∀ r ∈ (ops.foldl applyPollOp t).rows, r.likes = 0 := by
  intro ops
  induction ops with
  | nil =>
    intro t h
    simpa using h
  | cons op ops ih =>
    intro t h
    rw [List.foldl_cons]
    exact ih _ (pollOp_preserves_likes t op h)

/- ------------------------------------------------------------------ -/
/- Claim theorems                                                      -/
/- ------------------------------------------------------------------ -/

/-- C1: for every resource type and every valid creation input, Create
inserts exactly one row and returns the input echoed back verbatim.  The
response is the input model itself (PollCreate, CommentCreate, TeamCreate,
PlayerCreate), a type that has no id field and no server-computed default
such as Poll.likes, so the response cannot contain them. -/
theorem create_inserts_one_row_and_echoes_input :
    (∀ (t : Table PollRow) (p : PollCreate),
       (create_poll t p).1 = p ∧
       (create_poll t p).2.rows
         = t.rows ++ [{ id := t.nextId, question := p.question, likes := 0 }]) ∧
    (∀ (t : Table CommentRow) (c : CommentCreate),
       (create_comment t c).1 = c ∧
       (create_comment t c).2.rows
         = t.rows ++ [{ id := t.nextId, poll_id := c.poll_id, content := c.content }]) ∧
    (∀ (t : Table TeamRow) (c : TeamCreate),
       (create_team t c).1 = c ∧
       (create_team t c).2.rows
         = t.rows ++ [{ id := t.nextId, team_name := c.team_name, city := c.city,
                        championships := c.championships }]) ∧
    (∀ (t : Table PlayerRow) (c : PlayerCreate),
       (create_player t c).1 = c ∧
       (create_player t c).2.rows
         = t.rows ++ [{ id := t.nextId, name := c.name, jersey_number := c.jersey_number,
                        position := c.position, team_id := c.team_id }]) :=
  ⟨fun _ _ => ⟨rfl, rfl⟩, fun _ _ => ⟨rfl, rfl⟩, fun _ _ => ⟨rfl, rfl⟩, fun _ _ => ⟨rfl, rfl⟩⟩

/-- C9: for every resource type and creation input, Create followed by
ListAll returns the prior ListAll result extended by exactly one record,
whose caller-supplied fields equal the input (id and Poll.likes being the
server-defaulted fields). -/
theorem create_then_list_all_appends_one_record :
    (∀ (t : Table PollRow) (p : PollCreate),
       get_polls (create_poll t p).2
         = get_polls t ++ [{ id := t.nextId, question := p.question, likes := 0 }] ∧
       (get_polls (create_poll t p).2).length = (get_polls t).length + 1) ∧
    (∀ (t : Table CommentRow) (c : CommentCreate),
       get_comments (create_comment t c).2
         = get_comments t ++ [{ id := t.nextId, poll_id := c.poll_id, content := c.content }] ∧
       (get_comments (create_comment t c).2).length = (get_comments t).length + 1) ∧
    (∀ (t : Table TeamRow) (c : TeamCreate),
       get_teams (create_team t c).2
         = get_teams t ++ [{ id := t.nextId, team_name := c.team_name, city := c.city,
                             championships := c.championships }] ∧
       (get_teams (create_team t c).2).length = (get_teams t).length + 1) ∧
    (∀ (t : Table PlayerRow) (c : PlayerCreate),
       get_players (create_player t c).2
         = get_players t ++ [{ id := t.nextId, name := c.name, jersey_number := c.jersey_number,
                               position := c.position, team_id := c.team_id }] ∧
       (get_players (create_player t c).2).length = (get_players t).length + 1) := by
  refine ⟨fun t p => ⟨rfl, ?_⟩, fun t c => ⟨rfl, ?_⟩, fun t c => ⟨rfl, ?_⟩, fun t c => ⟨rfl, ?_⟩⟩ <;>
    simp [get_polls, get_comments, get_teams, get_players,
          create_poll, create_comment, create_team, create_player]

/-- C6: for every resource type, every table state and every id, DeleteOne
followed immediately by GetOne on the same id yields the 404 NotFound
error: a successful delete removes every row with that id, and a failed
delete means none existed. -/
theorem delete_then_get_returns_not_found :
    (∀ (t : Table PollRow) (i : Int),
       get_poll (delete_poll t i).2 i
         = .error { status_code := 404, detail := "Poll not found" }) ∧
    (∀ (t : Table CommentRow) (i : Int),
       get_comment (delete_comment t i).2 i
         = .error { status_code := 404, detail := "Comment not found" }) ∧
    (∀ (t : Table TeamRow) (i : Int),
       get_team (delete_team t i).2 i
         = .error { status_code := 404, detail := "Team not found" }) ∧
    (∀ (t : Table PlayerRow) (i : Int),
       get_player (delete_player t i).2 i
         = .error { status_code := 404, detail := "Player not found" }) := by
  refine ⟨fun t i => ?_, fun t i => ?_, fun t i => ?_, fun t i => ?_⟩
  · unfold get_poll delete_poll
    rw [find?_filter_not (fun r => r.id == i) t.rows]
  · unfold get_comment delete_comment
    rw [find?_filter_not (fun r => r.id == i) t.rows]
  · unfold get_team delete_team
    rw [find?_filter_not (fun r => r.id == i) t.rows]
  · unfold get_player delete_player
    rw [find?_filter_not (fun r => r.id == i) t.rows]

/-- C5: Create of a Comment whose poll_id matches no existing Poll row
still succeeds: it returns the echoed input and inserts the row into the
comments table; the declared foreign key is never validated, and the
handler never reads the polls table at all. -/
theorem create_comment_unchecked_foreign_key :
    ∀ (db : DB) (c : CommentCreate),
      (∀ p ∈ db.polls.rows, p.id ≠ c.poll_id) →
      (app_create_comment db c).1 = c ∧
      (app_create_comment db c).2.comments.rows
        = db.comments.rows
          ++ [{ id := db.comments.nextId, poll_id := c.poll_id, content := c.content }] :=
  fun _ _ _ => ⟨rfl, rfl⟩

/-- Witness for C5, the spec scenario: POST /comments/ with poll_id 999 on
the freshly initialized store (which has no poll 999) succeeds and inserts
the comment. -/
theorem create_comment_unchecked_foreign_key_witness :
    (app_create_comment initDB { poll_id := 999, content := "hi" }).1
      = { poll_id := 999, content := "hi" } ∧
    (app_create_comment initDB { poll_id := 999, content := "hi" }).2.comments.rows
      = initDB.comments.rows
        ++ [{ id := initDB.comments.nextId, poll_id := 999, content := "hi" }] :=
  create_comment_unchecked_foreign_key initDB { poll_id := 999, content := "hi" }
    (by simp [initDB])

/-- C4: in every store state reachable from the freshly initialized
service by any sequence of exposed poll operations (Create, UpdateOne,
DeleteOne; the GET routes do not write), every polls row has likes = 0:
likes is set once at creation to the column default 0 and no operation
ever writes it again. -/
theorem reachable_poll_likes_eq_zero :
    ∀ (ops : List PollOp), ∀ r ∈ (runPolls ops).rows, r.likes = 0 :=
  fun ops => runPolls_likes_aux ops initDB.polls (by simp [initDB])

/-- Witness for C4: after creating one poll, the stored row has likes 0. -/
theorem reachable_poll_likes_eq_zero_witness :
    ({ id := 1, question := "Best sport?", likes := 0 } : PollRow).likes = 0 :=
  reachable_poll_likes_eq_zero [.create { question := "Best sport?" }]
    { id := 1, question := "Best sport?", likes := 0 } (by decide)

/-- C3: for every resource type and every id with no matching row, GetOne
fails with the resource-specific 404 NotFound error, UpdateOne fails the
same way (for every partial) leaving the table unchanged, and DeleteOne
fails the same way leaving the table unchanged; no record is returned. -/
theorem absent_id_operations_return_not_found :
    (∀ (t : Table PollRow) (i : Int), (∀ r ∈ t.rows, r.id ≠ i) →
       get_poll t i = .error { status_code := 404, detail := "Poll not found" } ∧
       (∀ u, update_poll t i u
         = (.error { status_code := 404, detail := "Poll not found" }, t)) ∧
       delete_poll t i = (.error { status_code := 404, detail := "Poll not found" }, t)) ∧
    (∀ (t : Table CommentRow) (i : Int), (∀ r ∈ t.rows, r.id ≠ i) →
       get_comment t i = .error { status_code := 404, detail := "Comment not found" } ∧
       (∀ u, update_comment t i u
         = (.error { status_code := 404, detail := "Comment not found" }, t)) ∧
       delete_comment t i = (.error { status_code := 404, detail := "Comment not found" }, t)) ∧
    (∀ (t : Table TeamRow) (i : Int), (∀ r ∈ t.rows, r.id ≠ i) →
       get_team t i = .error { status_code := 404, detail := "Team not found" } ∧
       (∀ u, update_team t i u
         = (.error { status_code := 404, detail := "Team not found" }, t)) ∧
       delete_team t i = (.error { status_code := 404, detail := "Team not found" }, t)) ∧
    (∀ (t : Table PlayerRow) (i : Int), (∀ r ∈ t.rows, r.id ≠ i) →
       get_player t i = .error { status_code := 404, detail := "Player not found" } ∧
       (∀ u, update_player t i u
         = (.error { status_code := 404, detail := "Player not found" }, t)) ∧
       delete_player t i = (.error { status_code := 404, detail := "Player not found" }, t)) := by
  refine ⟨fun t i h => ?_, fun t i h => ?_, fun t i h => ?_, fun t i h => ?_⟩ <;>
  · have hnone : t.rows.find? (fun r => r.id == i) = none :=
      List.find?_eq_none.mpr (fun r hr => by simpa using h r hr)
    have hcount : t.rows.countP (fun r => r.id == i) = 0 :=
      List.countP_eq_zero.mpr (fun r hr => by simpa using h r hr)
    have hfilter : t.rows.filter (fun r => !(r.id == i)) = t.rows :=
      List.filter_eq_self.mpr (fun r hr => by simp [h r hr])
    refine ⟨?_, fun u => ?_, ?_⟩
    · first
      | (unfold get_poll; rw [hnone])
      | (unfold get_comment; rw [hnone])
      | (unfold get_team; rw [hnone])
      | (unfold get_player; rw [hnone])
    · first
      | exact update_poll_eq_of_none t i u hnone
      | exact update_comment_eq_of_none t i u hnone
      | exact update_team_eq_of_none t i u hnone
      | exact update_player_eq_of_none t i u hnone
    · first
      | (unfold delete_poll; rw [hcount, hfilter]; rfl)
      | (unfold delete_comment; rw [hcount, hfilter]; rfl)
      | (unfold delete_team; rw [hcount, hfilter]; rfl)
      | (unfold delete_player; rw [hcount, hfilter]; rfl)

/-- Witness for C3: on the freshly initialized (empty) tables, GetOne,
UpdateOne and DeleteOne at id 1 all return the resource-specific 404. -/
theorem absent_id_operations_return_not_found_witness :
    (get_poll { rows := [], nextId := 1 } 1
       = .error { status_code := 404, detail := "Poll not found" } ∧
     (∀ u, update_poll { rows := [], nextId := 1 } 1 u
       = (.error { status_code := 404, detail := "Poll not found" }, { rows := [], nextId := 1 })) ∧
     delete_poll { rows := [], nextId := 1 } 1
       = (.error { status_code := 404, detail := "Poll not found" }, { rows := [], nextId := 1 })) ∧
    (get_comment { rows := [], nextId := 1 } 1
       = .error { status_code := 404, detail := "Comment not found" } ∧
     (∀ u, update_comment { rows := [], nextId := 1 } 1 u
       = (.error { status_code := 404, detail := "Comment not found" }, { rows := [], nextId := 1 })) ∧
     delete_comment { rows := [], nextId := 1 } 1
       = (.error { status_code := 404, detail := "Comment not found" }, { rows := [], nextId := 1 })) ∧
    (get_team { rows := [], nextId := 1 } 1
       = .error { status_code := 404, detail := "Team not found" } ∧
     (∀ u, update_team { rows := [], nextId := 1 } 1 u
       = (.error { status_code := 404, detail := "Team not found" }, { rows := [], nextId := 1 })) ∧
     delete_team { rows := [], nextId := 1 } 1
       = (.error { status_code := 404, detail := "Team not found" }, { rows := [], nextId := 1 })) ∧
    (get_player { rows := [], nextId := 1 } 1
       = .error { status_code := 404, detail := "Player not found" } ∧
     (∀ u, update_player { rows := [], nextId := 1 } 1 u
       = (.error { status_code := 404, detail := "Player not found" }, { rows := [], nextId := 1 })) ∧
     delete_player { rows := [], nextId := 1 } 1
       = (.error { status_code := 404, detail := "Player not found" }, { rows := [], nextId := 1 })) :=
  ⟨absent_id_operations_return_not_found.1 { rows := [], nextId := 1 } 1 (by simp),
   absent_id_operations_return_not_found.2.1 { rows := [], nextId := 1 } 1 (by simp),
   absent_id_operations_return_not_found.2.2.1 { rows := [], nextId := 1 } 1 (by simp),
   absent_id_operations_return_not_found.2.2.2 { rows := [], nextId := 1 } 1 (by simp)⟩

/-- C2: for every resource type, when a row with the requested id exists,
UpdateOne replaces each field the partial supplies and retains the stored
value for each field left None, returns the merged full record (id
included: for a poll, id, question and likes), and stores the merged
record: GetOne on the same id afterwards returns exactly the merged
record. -/
theorem update_merges_partial_and_returns_full_record :
    (∀ (t : Table PollRow) (i : Int) (u : PollUpdate) (row : PollRow),
       t.rows.find? (fun r => r.id == i) = some row →
       (update_poll t i u).1
         = .ok { id := i, question := u.question.getD row.question, likes := row.likes } ∧
       get_poll (update_poll t i u).2 i
         = .ok { id := i, question := u.question.getD row.question, likes := row.likes }) ∧
    (∀ (t : Table CommentRow) (i : Int) (u : CommentUpdate) (row : CommentRow),
       t.rows.find? (fun r => r.id == i) = some row →
       (update_comment t i u).1
         = .ok { id := i, poll_id := row.poll_id, content := u.content.getD row.content } ∧
       get_comment (update_comment t i u).2 i
         = .ok { id := i, poll_id := row.poll_id, content := u.content.getD row.content }) ∧
    (∀ (t : Table TeamRow) (i : Int) (u : TeamUpdate) (row : TeamRow),
       t.rows.find? (fun r => r.id == i) = some row →
       (update_team t i u).1
         = .ok { id := i, team_name := u.team_name.getD row.team_name,
                 city := u.city.getD row.city,
                 championships := u.championships.getD row.championships } ∧
       get_team (update_team t i u).2 i
         = .ok { id := i, team_name := u.team_name.getD row.team_name,
                 city := u.city.getD row.city,
                 championships := u.championships.getD row.championships }) ∧
    (∀ (t : Table PlayerRow) (i : Int) (u : PlayerUpdate) (row : PlayerRow),
       t.rows.find? (fun r => r.id == i) = some row →
       (update_player t i u).1
         = .ok { id := i, name := u.name.getD row.name,
                 jersey_number := u.jersey_number.getD row.jersey_number,
                 position := u.position.getD row.position,
                 team_id := u.team_id.getD row.team_id } ∧
       get_player (update_player t i u).2 i
         = .ok { id := i, name := u.name.getD row.name,
                 jersey_number := u.jersey_number.getD row.jersey_number,
                 position := u.position.getD row.position,
                 team_id := u.team_id.getD row.team_id }) := by
  refine ⟨?_, ?_, ?_, ?_⟩
  · intro t i u row h
    have hid : row.id = i := by simpa using List.find?_some h
    have h1 : (update_poll t i u).1
        = .ok { id := i, question := u.question.getD row.question, likes := row.likes } := by
      rw [update_poll_eq_of_find t i u row h]
    refine ⟨h1, ?_⟩
    have h2 : (update_poll t i u).2.rows = t.rows.map (fun r =>
        if r.id == i then { r with question := u.question.getD row.question } else r) := by
      rw [update_poll_eq_of_find t i u row h]
    have hg : ∀ r : PollRow,
        ((fun r => if r.id == i then { r with question := u.question.getD row.question } else r) r).id
          = r.id := by
      intro r
      dsimp only
      split <;> rfl
    have hfind : (update_poll t i u).2.rows.find? (fun r => r.id == i)
        = some { id := i, question := u.question.getD row.question, likes := row.likes } := by
      rw [h2, find?_id_map t.rows (fun r => r.id) _ i hg, h, Option.map_some', if_pos (by simpa using hid)]
      rw [show ({ row with question := u.question.getD row.question } : PollRow)
            = { id := row.id, question := u.question.getD row.question, likes := row.likes } from rfl, hid]
    unfold get_poll
    rw [hfind]
  · intro t i u row h
    have hid : row.id = i := by simpa using List.find?_some h
    have h1 : (update_comment t i u).1
        = .ok { id := i, poll_id := row.poll_id, content := u.content.getD row.content } := by
      rw [update_comment_eq_of_find t i u row h]
    refine ⟨h1, ?_⟩
    have h2 : (update_comment t i u).2.rows = t.rows.map (fun r =>
        if r.id == i then { r with content := u.content.getD row.content } else r) := by
      rw [update_comment_eq_of_find t i u row h]
    have hg : ∀ r : CommentRow,
        ((fun r => if r.id == i then { r with content := u.content.getD row.content } else r) r).id
          = r.id := by
      intro r
      dsimp only
      split <;> rfl
    have hfind : (update_comment t i u).2.rows.find? (fun r => r.id == i)
        = some { id := i, poll_id := row.poll_id, content := u.content.getD row.content } := by
      rw [h2, find?_id_map t.rows (fun r => r.id) _ i hg, h, Option.map_some', if_pos (by simpa using hid)]
      rw [show ({ row with content := u.content.getD row.content } : CommentRow)
            = { id := row.id, poll_id := row.poll_id, content := u.content.getD row.content } from rfl, hid]
    unfold get_comment
    rw [hfind]
  · intro t i u row h
    have hid : row.id = i := by simpa using List.find?_some h
    have h1 : (update_team t i u).1
        = .ok { id := i, team_name := u.team_name.getD row.team_name,
                city := u.city.getD row.city,
                championships := u.championships.getD row.championships } := by
      rw [update_team_eq_of_find t i u row h]
    refine ⟨h1, ?_⟩
    have h2 : (update_team t i u).2.rows = t.rows.map (fun r =>
        if r.id == i then
          { r with team_name := u.team_name.getD row.team_name,
                   city := u.city.getD row.city,
                   championships := u.championships.getD row.championships }
        else r) := by
      rw [update_team_eq_of_find t i u row h]
    have hg : ∀ r : TeamRow,
        ((fun r => if r.id == i then
            { r with team_name := u.team_name.getD row.team_name,
                     city := u.city.getD row.city,
                     championships := u.championships.getD row.championships }
          else r) r).id = r.id := by
      intro r
      dsimp only
      split <;> rfl
    have hfind : (update_team t i u).2.rows.find? (fun r => r.id == i)
        = some { id := i, team_name := u.team_name.getD row.team_name,
                 city := u.city.getD row.city,
                 championships := u.championships.getD row.championships } := by
      rw [h2, find?_id_map t.rows (fun r => r.id) _ i hg, h, Option.map_some', if_pos (by simpa using hid)]
      rw [show ({ row with team_name := u.team_name.getD row.team_name,
                           city := u.city.getD row.city,
                           championships := u.championships.getD row.championships } : TeamRow)
            = { id := row.id, team_name := u.team_name.getD row.team_name,
                city := u.city.getD row.city,
                championships := u.championships.getD row.championships } from rfl, hid]
    unfold get_team
    rw [hfind]
  · intro t i u row h
    have hid : row.id = i := by simpa using List.find?_some h
    have h1 : (update_player t i u).1
        = .ok { id := i, name := u.name.getD row.name,
                jersey_number := u.jersey_number.getD row.jersey_number,
                position := u.position.getD row.position,
                team_id := u.team_id.getD row.team_id } := by
      rw [update_player_eq_of_find t i u row h]
    refine ⟨h1, ?_⟩
    have h2 : (update_player t i u).2.rows = t.rows.map (fun r =>
        if r.id == i then
          { r with name := u.name.getD row.name,
                   jersey_number := u.jersey_number.getD row.jersey_number,
                   position := u.position.getD row.position,
                   team_id := u.team_id.getD row.team_id }
        else r) := by
      rw [update_player_eq_of_find t i u row h]
    have hg : ∀ r : PlayerRow,
        ((fun r => if r.id == i then
            { r with name := u.name.getD row.name,
                     jersey_number := u.jersey_number.getD row.jersey_number,
                     position := u.position.getD row.position,
                     team_id := u.team_id.getD row.team_id }
          else r) r).id = r.id := by
      intro r
      dsimp only
      split <;> rfl
    have hfind : (update_player t i u).2.rows.find? (fun r => r.id == i)
        = some { id := i, name := u.name.getD row.name,
                 jersey_number := u.jersey_number.getD row.jersey_number,
                 position := u.position.getD row.position,
                 team_id := u.team_id.getD row.team_id } := by
      rw [h2, find?_id_map t.rows (fun r => r.id) _ i hg, h, Option.map_some', if_pos (by simpa using hid)]
      rw [show ({ row with name := u.name.getD row.name,
                           jersey_number := u.jersey_number.getD row.jersey_number,
                           position := u.position.getD row.position,
                           team_id := u.team_id.getD row.team_id } : PlayerRow)
            = { id := row.id, name := u.name.getD row.name,
                jersey_number := u.jersey_number.getD row.jersey_number,
                position := u.position.getD row.position,
                team_id := u.team_id.getD row.team_id } from rfl, hid]
    unfold get_player
    rw [hfind]

/-- Witness for C2, one concrete partial update per resource: the spec
scenario PUT /polls/1 with question "Best sport ever?" (new question,
retained likes 0), a comment content update retaining poll_id, a team
city update retaining the other fields, and a player position update
retaining the other fields; in each case GetOne reads back the same
merged record. -/
theorem update_merges_partial_witness :
    ((update_poll { rows := [{ id := 1, question := "Best sport?", likes := 0 }], nextId := 2 }
        1 { question := some "Best sport ever?" }).1
      = .ok { id := 1, question := "Best sport ever?", likes := 0 } ∧
     get_poll (update_poll { rows := [{ id := 1, question := "Best sport?", likes := 0 }], nextId := 2 }
        1 { question := some "Best sport ever?" }).2 1
      = .ok { id := 1, question := "Best sport ever?", likes := 0 }) ∧
    ((update_comment { rows := [{ id := 1, poll_id := 4, content := "nice" }], nextId := 2 }
        1 { content := some "great" }).1
      = .ok { id := 1, poll_id := 4, content := "great" } ∧
     get_comment (update_comment { rows := [{ id := 1, poll_id := 4, content := "nice" }], nextId := 2 }
        1 { content := some "great" }).2 1
      = .ok { id := 1, poll_id := 4, content := "great" }) ∧
    ((update_team { rows := [{ id := 1, team_name := "Lakers", city := "LA", championships := 17 }], nextId := 2 }
        1 { team_name := none, city := some "Los Angeles", championships := none }).1
      = .ok { id := 1, team_name := "Lakers", city := "Los Angeles", championships := 17 } ∧
     get_team (update_team { rows := [{ id := 1, team_name := "Lakers", city := "LA", championships := 17 }], nextId := 2 }
        1 { team_name := none, city := some "Los Angeles", championships := none }).2 1
      = .ok { id := 1, team_name := "Lakers", city := "Los Angeles", championships := 17 }) ∧
    ((update_player { rows := [{ id := 1, name := "Kobe", jersey_number := 24, position := "SG", team_id := 1 }], nextId := 2 }
        1 { name := none, jersey_number := none, position := some "SF", team_id := none }).1
      = .ok { id := 1, name := "Kobe", jersey_number := 24, position := "SF", team_id := 1 } ∧
     get_player (update_player { rows := [{ id := 1, name := "Kobe", jersey_number := 24, position := "SG", team_id := 1 }], nextId := 2 }
        1 { name := none, jersey_number := none, position := some "SF", team_id := none }).2 1
      = .ok { id := 1, name := "Kobe", jersey_number := 24, position := "SF", team_id := 1 }) :=
  ⟨update_merges_partial_and_returns_full_record.1
     { rows := [{ id := 1, question := "Best sport?", likes := 0 }], nextId := 2 }
     1 { question := some "Best sport ever?" } { id := 1, question := "Best sport?", likes := 0 } rfl,
   update_merges_partial_and_returns_full_record.2.1
     { rows := [{ id := 1, poll_id := 4, content := "nice" }], nextId := 2 }
     1 { content := some "great" } { id := 1, poll_id := 4, content := "nice" } rfl,
   update_merges_partial_and_returns_full_record.2.2.1
     { rows := [{ id := 1, team_name := "Lakers", city := "LA", championships := 17 }], nextId := 2 }
     1 { team_name := none, city := some "Los Angeles", championships := none }
     { id := 1, team_name := "Lakers", city := "LA", championships := 17 } rfl,
   update_merges_partial_and_returns_full_record.2.2.2
     { rows := [{ id := 1, name := "Kobe", jersey_number := 24, position := "SG", team_id := 1 }], nextId := 2 }
     1 { name := none, jersey_number := none, position := some "SF", team_id := none }
     { id := 1, name := "Kobe", jersey_number := 24, position := "SG", team_id := 1 } rfl⟩

/-- C7: for every resource type, UpdateOne with an empty partial (every
field None) on an existing row returns exactly the stored record and
leaves the table exactly unchanged; the primary-key uniqueness that
SQLite guarantees for the id column is taken as a hypothesis. -/
theorem empty_partial_update_leaves_record_unchanged :
    (∀ (t : Table PollRow) (i : Int) (row : PollRow),
       (t.rows.map (fun r => r.id)).Nodup →
       t.rows.find? (fun r => r.id == i) = some row →
       update_poll t i { question := none } = (.ok row, t)) ∧
    (∀ (t : Table CommentRow) (i : Int) (row : CommentRow),
       (t.rows.map (fun r => r.id)).Nodup →
       t.rows.find? (fun r => r.id == i) = some row →
       update_comment t i { content := none } = (.ok row, t)) ∧
    (∀ (t : Table TeamRow) (i : Int) (row : TeamRow),
       (t.rows.map (fun r => r.id)).Nodup →
       t.rows.find? (fun r => r.id == i) = some row →
       update_team t i { team_name := none, city := none, championships := none }
         = (.ok row, t)) ∧
    (∀ (t : Table PlayerRow) (i : Int) (row : PlayerRow),
       (t.rows.map (fun r => r.id)).Nodup →
       t.rows.find? (fun r => r.id == i) = some row →
       update_player t i { name := none, jersey_number := none, position := none, team_id := none }
         = (.ok row, t)) := by
  refine ⟨?_, ?_, ?_, ?_⟩
  · intro t i row hn h
    have hid : row.id = i := by simpa using List.find?_some h
    have hmem : row ∈ t.rows := List.mem_of_find?_eq_some h
    subst hid
    rw [update_poll_eq_of_find t row.id _ row h]
    have hrows : t.rows.map (fun r =>
        if r.id == row.id then { r with question := (none : Option String).getD row.question }
        else r) = t.rows := by
      apply map_eq_self_of_eq_on
      intro r hr
      dsimp only
      by_cases hb : (r.id == row.id) = true
      · have hrr : r = row := List.inj_on_of_nodup_map hn hr hmem (by simpa using hb)
        rw [if_pos hb, hrr]
        rfl
      · rw [if_neg hb]
    simp only [Prod.mk.injEq]
    exact ⟨rfl, by rw [hrows]⟩
  · intro t i row hn h
    have hid : row.id = i := by simpa using List.find?_some h
    have hmem : row ∈ t.rows := List.mem_of_find?_eq_some h
    subst hid
    rw [update_comment_eq_of_find t row.id _ row h]
    have hrows : t.rows.map (fun r =>
        if r.id == row.id then { r with content := (none : Option String).getD row.content }
        else r) = t.rows := by
      apply map_eq_self_of_eq_on
      intro r hr
      dsimp only
      by_cases hb : (r.id == row.id) = true
      · have hrr : r = row := List.inj_on_of_nodup_map hn hr hmem (by simpa using hb)
        rw [if_pos hb, hrr]
        rfl
      · rw [if_neg hb]
    simp only [Prod.mk.injEq]
    exact ⟨rfl, by rw [hrows]⟩
  · intro t i row hn h
    have hid : row.id = i := by simpa using List.find?_some h
    have hmem : row ∈ t.rows := List.mem_of_find?_eq_some h
    subst hid
    rw [update_team_eq_of_find t row.id _ row h]
    have hrows : t.rows.map (fun r =>
        if r.id == row.id then
          { r with team_name := (none : Option String).getD row.team_name,
                   city := (none : Option String).getD row.city,
                   championships := (none : Option Int).getD row.championships }
        else r) = t.rows := by
      apply map_eq_self_of_eq_on
      intro r hr
      dsimp only
      by_cases hb : (r.id == row.id) = true
      · have hrr : r = row := List.inj_on_of_nodup_map hn hr hmem (by simpa using hb)
        rw [if_pos hb, hrr]
        rfl
      · rw [if_neg hb]
    simp only [Prod.mk.injEq]
    exact ⟨rfl, by rw [hrows]⟩
  · intro t i row hn h
    have hid : row.id = i := by simpa using List.find?_some h
    have hmem : row ∈ t.rows := List.mem_of_find?_eq_some h
    subst hid
    rw [update_player_eq_of_find t row.id _ row h]
    have hrows : t.rows.map (fun r =>
        if r.id == row.id then
          { r with name := (none : Option String).getD row.name,
                   jersey_number := (none : Option Int).getD row.jersey_number,
                   position := (none : Option String).getD row.position,
                   team_id := (none : Option Int).getD row.team_id }
        else r) = t.rows := by
      apply map_eq_self_of_eq_on
      intro r hr
      dsimp only
      by_cases hb : (r.id == row.id) = true
      · have hrr : r = row := List.inj_on_of_nodup_map hn hr hmem (by simpa using hb)
        rw [if_pos hb, hrr]
        rfl
      · rw [if_neg hb]
    simp only [Prod.mk.injEq]
    exact ⟨rfl, by rw [hrows]⟩

/-- Witness for C7: the empty partial update of poll 1, comment 1, team 1
and player 1 on one-row tables returns the stored record and leaves the
table unchanged. -/
theorem empty_partial_update_leaves_record_unchanged_witness :
    update_poll { rows := [{ id := 1, question := "Best sport?", likes := 0 }], nextId := 2 }
        1 { question := none }
      = (.ok { id := 1, question := "Best sport?", likes := 0 },
         { rows := [{ id := 1, question := "Best sport?", likes := 0 }], nextId := 2 }) ∧
    update_comment { rows := [{ id := 1, poll_id := 4, content := "nice" }], nextId := 2 } 1 { content := none }
      = (.ok { id := 1, poll_id := 4, content := "nice" },
         { rows := [{ id := 1, poll_id := 4, content := "nice" }], nextId := 2 }) ∧
    update_team { rows := [{ id := 1, team_name := "Lakers", city := "LA", championships := 17 }], nextId := 2 }
        1 { team_name := none, city := none, championships := none }
      = (.ok { id := 1, team_name := "Lakers", city := "LA", championships := 17 },
         { rows := [{ id := 1, team_name := "Lakers", city := "LA", championships := 17 }], nextId := 2 }) ∧
    update_player { rows := [{ id := 1, name := "Kobe", jersey_number := 24, position := "SG", team_id := 1 }], nextId := 2 }
        1 { name := none, jersey_number := none, position := none, team_id := none }
      = (.ok { id := 1, name := "Kobe", jersey_number := 24, position := "SG", team_id := 1 },
         { rows := [{ id := 1, name := "Kobe", jersey_number := 24, position := "SG", team_id := 1 }], nextId := 2 }) :=
  ⟨empty_partial_update_leaves_record_unchanged.1
     { rows := [{ id := 1, question := "Best sport?", likes := 0 }], nextId := 2 }
     1 { id := 1, question := "Best sport?", likes := 0 } (by decide) rfl,
   empty_partial_update_leaves_record_unchanged.2.1
     { rows := [{ id := 1, poll_id := 4, content := "nice" }], nextId := 2 }
     1 { id := 1, poll_id := 4, content := "nice" } (by decide) rfl,
   empty_partial_update_leaves_record_unchanged.2.2.1
     { rows := [{ id := 1, team_name := "Lakers", city := "LA", championships := 17 }], nextId := 2 }
     1 { id := 1, team_name := "Lakers", city := "LA", championships := 17 } (by decide) rfl,
   empty_partial_update_leaves_record_unchanged.2.2.2
     { rows := [{ id := 1, name := "Kobe", jersey_number := 24, position := "SG", team_id := 1 }], nextId := 2 }
     1 { id := 1, name := "Kobe", jersey_number := 24, position := "SG", team_id := 1 } (by decide) rfl⟩

/-- C10: UpdateOne on an existing Comment returns the prior stored poll_id
(its input model has no poll_id field) and leaves every stored row's
(id, poll_id) pair unchanged, so poll_id can never be modified after
creation through the update route. -/
theorem update_comment_preserves_poll_id :
    ∀ (t : Table CommentRow) (i : Int) (u : CommentUpdate) (row : CommentRow),
      t.rows.find? (fun r => r.id == i) = some row →
      (update_comment t i u).1
        = .ok { id := i, poll_id := row.poll_id, content := u.content.getD row.content } ∧
      (update_comment t i u).2.rows.map (fun r => (r.id, r.poll_id))
        = t.rows.map (fun r => (r.id, r.poll_id)) := by
  intro t i u row h
  rw [update_comment_eq_of_find t i u row h]
  refine ⟨rfl, ?_⟩
  rw [List.map_map]
  apply List.map_congr_left
  intro r hr
  simp only [Function.comp]
  split <;> rfl

/-- Witness for C10: updating comment 1's content leaves its stored
poll_id 4 in place and reports it back. -/
theorem update_comment_preserves_poll_id_witness :
    (update_comment { rows := [{ id := 1, poll_id := 4, content := "nice" }], nextId := 2 }
        1 { content := some "better" }).1
      = .ok { id := 1, poll_id := 4, content := "better" } ∧
    (update_comment { rows := [{ id := 1, poll_id := 4, content := "nice" }], nextId := 2 }
        1 { content := some "better" }).2.rows.map (fun r => (r.id, r.poll_id))
      = ({ rows := [{ id := 1, poll_id := 4, content := "nice" }], nextId := 2 } : Table CommentRow).rows.map
          (fun r => (r.id, r.poll_id)) :=
  update_comment_preserves_poll_id
    { rows := [{ id := 1, poll_id := 4, content := "nice" }], nextId := 2 }
    1 { content := some "better" } { id := 1, poll_id := 4, content := "nice" } rfl

/-- C8 counterexample: UpdateOne does not always write all of the entity's
fields.  On a comments table holding row (1, 7, "hi"), the UPDATE
statement executed for PUT /comments/1 with an empty partial assigns only
the content column, while poll_id is a field of the Comment entity
(a comments-table column) that the statement never writes — so the
update is not a full-row rewrite of the entity's fields. -/
theorem update_comment_statement_omits_poll_id :
    update_comment_stmt { rows := [{ id := 1, poll_id := 7, content := "hi" }], nextId := 2 }
        1 { content := none }
      = some { table := "comments", sets := [("content", .strV "hi")], whereId := 1 } ∧
    ([("content", SqlValue.strV "hi")].map Prod.fst = ["content"]) ∧
    "poll_id" ∈ comments_columns ∧
    "poll_id" ∉ ([("content", SqlValue.strV "hi")].map Prod.fst) := by
  refine ⟨by decide, by decide, by decide, by decide⟩

/-- C8 amended: for every resource and every existing row, the executed
UPDATE statement's SET column list is a fixed list independent of which
partial fields were supplied, each column bound to the merged (retained
when unset) value, and the new table state is exactly the old rows with
those assignments applied to the matching row.  For teams and players that
fixed list is every non-id column of the table (a full-row rewrite); for
polls and comments it is only the update model's column (question;
content), so the remaining entity fields (likes; poll_id) are never
written. -/
theorem update_statement_columns_independent_of_partial :
    (∀ (t : Table PollRow) (i : Int) (u : PollUpdate) (row : PollRow),
       t.rows.find? (fun r => r.id == i) = some row →
       update_poll_stmt t i u = some { table := "polls", sets := pollSets row u, whereId := i } ∧
       (pollSets row u).map Prod.fst = ["question"] ∧
       (pollSets row u).map Prod.fst ≠ polls_columns.drop 1 ∧
       (update_poll t i u).2.rows = t.rows.map (fun r =>
         if r.id == i then applyPollAssignments (pollSets row u) r else r)) ∧
    (∀ (t : Table CommentRow) (i : Int) (u : CommentUpdate) (row : CommentRow),
       t.rows.find? (fun r => r.id == i) = some row →
       update_comment_stmt t i u = some { table := "comments", sets := commentSets row u, whereId := i } ∧
       (commentSets row u).map Prod.fst = ["content"] ∧
       (commentSets row u).map Prod.fst ≠ comments_columns.drop 1 ∧
       (update_comment t i u).2.rows = t.rows.map (fun r =>
         if r.id == i then applyCommentAssignments (commentSets row u) r else r)) ∧
    (∀ (t : Table TeamRow) (i : Int) (u : TeamUpdate) (row : TeamRow),
       t.rows.find? (fun r => r.id == i) = some row →
       update_team_stmt t i u = some { table := "teams", sets := teamSets row u, whereId := i } ∧
       (teamSets row u).map Prod.fst = teams_columns.drop 1 ∧
       (update_team t i u).2.rows = t.rows.map (fun r =>
         if r.id == i then applyTeamAssignments (teamSets row u) r else r)) ∧
    (∀ (t : Table PlayerRow) (i : Int) (u : PlayerUpdate) (row : PlayerRow),
       t.rows.find? (fun r => r.id == i) = some row →
       update_player_stmt t i u = some { table := "players", sets := playerSets row u, whereId := i } ∧
       (playerSets row u).map Prod.fst = players_columns.drop 1 ∧
       (update_player t i u).2.rows = t.rows.map (fun r =>
         if r.id == i then applyPlayerAssignments (playerSets row u) r else r)) := by
  refine ⟨fun t i u row h => ?_, fun t i u row h => ?_, fun t i u row h => ?_, fun t i u row h => ?_⟩
  · refine ⟨?_, rfl, ?_, ?_⟩
    · unfold update_poll_stmt
      rw [h, Option.map_some']
    · rw [show (pollSets row u).map Prod.fst = ["question"] from rfl]
      decide
    · unfold update_poll
      rw [h]
  · refine ⟨?_, rfl, ?_, ?_⟩
    · unfold update_comment_stmt
      rw [h, Option.map_some']
    · rw [show (commentSets row u).map Prod.fst = ["content"] from rfl]
      decide
    · unfold update_comment
      rw [h]
  · refine ⟨?_, rfl, ?_⟩
    · unfold update_team_stmt
      rw [h, Option.map_some']
    · unfold update_team
      rw [h]
  · refine ⟨?_, rfl, ?_⟩
    · unfold update_player_stmt
      rw [h, Option.map_some']
    · unfold update_player
      rw [h]

/-- Witness for the amended C8: PUT /teams/1 supplying only city executes
a statement that still assigns all three non-id columns, bound to the
merged values, and the store effect applies exactly those assignments. -/
theorem update_statement_columns_independent_of_partial_witness :
    update_team_stmt { rows := [{ id := 1, team_name := "Lakers", city := "LA", championships := 17 }], nextId := 2 }
        1 { team_name := none, city := some "Los Angeles", championships := none }
      = some { table := "teams",
               sets := teamSets { id := 1, team_name := "Lakers", city := "LA", championships := 17 }
                         { team_name := none, city := some "Los Angeles", championships := none },
               whereId := 1 } ∧
    (teamSets { id := 1, team_name := "Lakers", city := "LA", championships := 17 }
       { team_name := none, city := some "Los Angeles", championships := none }).map Prod.fst
      = teams_columns.drop 1 ∧
    (update_team { rows := [{ id := 1, team_name := "Lakers", city := "LA", championships := 17 }], nextId := 2 }
        1 { team_name := none, city := some "Los Angeles", championships := none }).2.rows
      = ({ rows := [{ id := 1, team_name := "Lakers", city := "LA", championships := 17 }], nextId := 2 } : Table TeamRow).rows.map
          (fun r => if r.id == 1 then
            applyTeamAssignments
              (teamSets { id := 1, team_name := "Lakers", city := "LA", championships := 17 }
                { team_name := none, city := some "Los Angeles", championships := none }) r
          else r) :=
  update_statement_columns_independent_of_partial.2.2.1
    { rows := [{ id := 1, team_name := "Lakers", city := "LA", championships := 17 }], nextId := 2 }
    1 { team_name := none, city := some "Los Angeles", championships := none }
    { id := 1, team_name := "Lakers", city := "LA", championships := 17 } rfl

end ItMajor3
